import Mathlib

/-!
Verification of the Build Launcher script `scripts/build_colt.py`.

The script is embedded shallowly: the ambient inputs it consumes (the
starting working directory, the integer returned by `generate_project()`,
and the exit status of the `os.system` build invocation) are collected in
an environment record, and running the script is a pure function from that
environment to the observable outcome: the ordered trace of effects
(prints, the directory change, the generation call, the child-process
invocation, the blocking input prompts), the process exit code, and the
final working directory.
-/

namespace BuildColt

/-- Characters of a path split on the separator character, model of the
segment structure of a POSIX path. -/
def splitSlash : List Char → List (List Char)
  | [] => [[]]
  | c :: cs =>
    if c = '/' then [] :: splitSlash cs
    else
      match splitSlash cs with
      | [] => [[c]]
      | s :: rest => (c :: s) :: rest

/-- Nonempty segments of a path. -/
def pathSegments (p : String) : List (List Char) :=
  (splitSlash p.data).filter (fun cs => !cs.isEmpty)

/-- Joins segments back with the separator. -/
def joinSegs : List (List Char) → List Char
  | [] => []
  | [s] => s
  | s :: rest => s ++ '/' :: joinSegs rest

/-- Effect of `os.chdir("..")` from directory `p`: the parent directory,
obtained by dropping the final path segment. -/
def parentDir (p : String) : String :=
  String.mk ('/' :: joinSegs (pathSegments p).dropLast)

/-- Model of Python's `str.endswith`: suffix test on the characters. -/
def pyEndsWith (s suf : String) : Bool :=
  suf.data.isSuffixOf s.data

/-- The test on line 6 of the script:
`os.getcwd().endswith("scripts") or os.getcwd().endswith("scripts/")`. -/
def scriptsSuffix (p : String) : Bool :=
  pyEndsWith p "scripts" || pyEndsWith p "scripts/"

/-- The final path segment of a path, a trailing separator tolerated.
This follows the specification's words ("final path segment is exactly
`scripts`"), to be compared with the source's suffix test. -/
def lastSegment (p : String) : Option (List Char) :=
  (pathSegments p).getLast?

/-- Ambient inputs the script consumes: the starting working directory,
the value returned by `generate_project()`, and the exit status of the
`os.system("cmake --build build")` invocation. -/
structure Env where
  cwd : String
  genRet : Int
  buildRet : Int
deriving DecidableEq, Repr

/-- Observable effects of the script, in order. `out` is a one-argument
`print`, `out2` a two-argument `print`, `chdir` the `os.chdir` call,
`callGenerate` the `generate_project()` call (recording the working
directory in effect when it runs), `runSystem` the `os.system` call
(recording the command line), and `readInput` a blocking `input(s)`
prompt (which writes `s` to standard output, then blocks). -/
inductive Event where
  | out (s : String)
  | out2 (a b : String)
  | chdir (arg : String)
  | callGenerate (wd : String)
  | runSystem (cmd : String)
  | readInput (s : String)
deriving DecidableEq, Repr

/-- Outcome of a run: the effect trace, the process exit code, and the
final working directory. -/
structure RunResult where
  trace : List Event
  exitCode : Nat
  finalCwd : String
deriving DecidableEq, Repr

/-- The whole script, line by line:
`print("-- Current working directory: ", os.getcwd())`; the `scripts`
suffix test guarding `os.chdir("..")` and its announcement; the import
and call of `generate_project`; on zero, `os.system("cmake --build build")`;
on zero again the success print and the continue prompt (exit 0 by falling
off the end); otherwise the abort prompt then `exit(1)`. -/
def runScript (env : Env) : RunResult :=
  let cwd1 := if scriptsSuffix env.cwd then parentDir env.cwd else env.cwd
  let t1 : List Event :=
    Event.out2 "-- Current working directory: " env.cwd ::
      (if scriptsSuffix env.cwd then
        [Event.chdir "..",
         Event.out "-- Changed working directory to the parent directory"]
      else [])
  let t2 := t1 ++ [Event.callGenerate cwd1]
  if env.genRet = 0 then
    if env.buildRet = 0 then
      { trace := t2 ++ [Event.runSystem "cmake --build build",
                        Event.out "\n-- CMake built successfully",
                        Event.readInput "Press enter to continue..."],
        exitCode := 0, finalCwd := cwd1 }
    else
      { trace := t2 ++ [Event.runSystem "cmake --build build",
                        Event.readInput "-- ABORTED: Press enter to continue..."],
        exitCode := 1, finalCwd := cwd1 }
  else
    { trace := t2 ++ [Event.readInput "-- ABORTED: Press enter to continue..."],
      exitCode := 1, finalCwd := cwd1 }

/-- Recognizes the directory-change effect. -/
def isChdir : Event → Bool
  | Event.chdir _ => true
  | _ => false

/-- Recognizes the `generate_project()` call. -/
def isGenCall : Event → Bool
  | Event.callGenerate _ => true
  | _ => false

/-- Recognizes the `os.system` build invocation. -/
def isSysCall : Event → Bool
  | Event.runSystem _ => true
  | _ => false

/-- Recognizes the generation call or the build invocation. -/
def isStepCall (e : Event) : Bool :=
  isGenCall e || isSysCall e

/-- The part of a trace from the first generation or build call onward. -/
def stepOnward (t : List Event) : List Event :=
  t.dropWhile (fun e => !isStepCall e)

/-- The part of a trace from the generation call onward. -/
def genOnward (t : List Event) : List Event :=
  t.dropWhile (fun e => !isGenCall e)

/-- C1, counterexample: starting from `/repo/myscripts`, whose final path
segment is `myscripts` and not `scripts`, the claim demands an unchanged
working directory, yet the script's `endswith("scripts")` test fires and
the run ends in the parent directory `/repo`. -/
theorem c1_counterexample :
    lastSegment "/repo/myscripts" ≠ some "scripts".data ∧
    (runScript { cwd := "/repo/myscripts", genRet := 0, buildRet := 0 }).finalCwd
      ≠ "/repo/myscripts" ∧
    (runScript { cwd := "/repo/myscripts", genRet := 0, buildRet := 0 }).finalCwd
      = parentDir "/repo/myscripts" := by
  refine ⟨by decide, by decide, by decide⟩

/-- C1, amended: the working directory after the normalization step is the
parent of the starting directory exactly when the starting directory, as a
string, ends with `scripts` or with `scripts/`; otherwise it is unchanged. -/
theorem c1_normalization (env : Env) :
    (scriptsSuffix env.cwd = true → (runScript env).finalCwd = parentDir env.cwd) ∧
    (scriptsSuffix env.cwd = false → (runScript env).finalCwd = env.cwd) := by
  rcases env with ⟨cwd, g, b⟩
  cases hs : scriptsSuffix cwd <;>
    by_cases hg : g = 0 <;>
      by_cases hb : b = 0 <;>
        simp [runScript, hs, hg, hb]

/-- C1, witness for the amended statement at `/repo/scripts`. -/
theorem c1_normalization_witness :
    scriptsSuffix "/repo/scripts" = true ∧
    (runScript { cwd := "/repo/scripts", genRet := 0, buildRet := 0 }).finalCwd
      = parentDir "/repo/scripts" :=
  ⟨by decide,
   (c1_normalization { cwd := "/repo/scripts", genRet := 0, buildRet := 0 }).1
     (by decide)⟩

/-- C2: whenever `generate_project()` returns a non-zero integer, the run
contains no `os.system` build invocation and the process exit code is 1. -/
theorem c2_genFailure (env : Env) (h : env.genRet ≠ 0) :
    ((runScript env).trace.filter isSysCall = []) ∧
    (runScript env).exitCode = 1 := by
  rcases env with ⟨cwd, g, b⟩
  cases hs : scriptsSuffix cwd <;>
    simp [runScript, hs, h, isSysCall, isGenCall, isChdir]

/-- C2, witness with a generator returning 7. -/
theorem c2_genFailure_witness :
    ((runScript { cwd := "/repo", genRet := 7, buildRet := 0 }).trace.filter
        isSysCall = []) ∧
    (runScript { cwd := "/repo", genRet := 7, buildRet := 0 }).exitCode = 1 :=
  c2_genFailure { cwd := "/repo", genRet := 7, buildRet := 0 } (by decide)

/-- C3: when `generate_project()` returns zero and the build invocation
exits non-zero, the process exit code is 1. -/
theorem c3_buildFailure (env : Env) (hg : env.genRet = 0)
    (hb : env.buildRet ≠ 0) :
    (runScript env).exitCode = 1 := by
  rcases env with ⟨cwd, g, b⟩
  cases hs : scriptsSuffix cwd <;> simp_all [runScript]

/-- C3, witness with a build exiting 2 (the spec's Scenario C). -/
theorem c3_buildFailure_witness :
    (runScript { cwd := "/repo", genRet := 0, buildRet := 2 }).exitCode = 1 :=
  c3_buildFailure { cwd := "/repo", genRet := 0, buildRet := 2 }
    (by decide) (by decide)

/-- C4: when both the generation call and the build invocation return
zero, the process exit code is 0 and the final two effects of the run are
the success print followed by the blocking press-enter prompt. -/
theorem c4_success (env : Env) (hg : env.genRet = 0) (hb : env.buildRet = 0) :
    (runScript env).exitCode = 0 ∧
    (runScript env).trace.drop ((runScript env).trace.length - 2) =
      [Event.out "\n-- CMake built successfully",
       Event.readInput "Press enter to continue..."] := by
  rcases env with ⟨cwd, g, b⟩
  cases hs : scriptsSuffix cwd <;> simp_all [runScript]

/-- C4, witness for the spec's Scenario A environment. -/
theorem c4_success_witness :
    (runScript { cwd := "/repo/scripts", genRet := 0, buildRet := 0 }).exitCode
      = 0 ∧
    (runScript { cwd := "/repo/scripts", genRet := 0, buildRet := 0 }).trace.drop
        ((runScript { cwd := "/repo/scripts", genRet := 0, buildRet := 0 }).trace.length - 2) =
      [Event.out "\n-- CMake built successfully",
       Event.readInput "Press enter to continue..."] :=
  c4_success { cwd := "/repo/scripts", genRet := 0, buildRet := 0 }
    (by decide) (by decide)

/-- C5: on failure of the generation step or of the build step, the run's
last effect is one and the same blocking acknowledgment, labeled with the
abort notice, and the process exit code is 1 — so both failure kinds are
surfaced identically. -/
theorem c5_abort (env : Env) (h : ¬(env.genRet = 0 ∧ env.buildRet = 0)) :
    (runScript env).trace.drop ((runScript env).trace.length - 1) =
      [Event.readInput "-- ABORTED: Press enter to continue..."] ∧
    (runScript env).exitCode = 1 := by
  rcases env with ⟨cwd, g, b⟩
  cases hs : scriptsSuffix cwd <;>
    by_cases hg : g = 0 <;>
      by_cases hb : b = 0 <;>
        simp_all [runScript]

/-- C5, witness with a failing generator. -/
theorem c5_abort_witness :
    (runScript { cwd := "/repo", genRet := 1, buildRet := 0 }).trace.drop
        ((runScript { cwd := "/repo", genRet := 1, buildRet := 0 }).trace.length - 1) =
      [Event.readInput "-- ABORTED: Press enter to continue..."] ∧
    (runScript { cwd := "/repo", genRet := 1, buildRet := 0 }).exitCode = 1 :=
  c5_abort { cwd := "/repo", genRet := 1, buildRet := 0 } (by decide)

/-- C6: every run's output matches the console protocol — exactly one of
the two terminal message pairs appears (the success print together with the
press-enter prompt, or the abort-labeled prompt), and the informational
line announcing the directory change appears exactly when the directory
change was performed in step 1. -/
theorem c6_console (env : Env) :
    ((Event.out "\n-- CMake built successfully" ∈ (runScript env).trace ∧
      Event.readInput "Press enter to continue..." ∈ (runScript env).trace ∧
      Event.readInput "-- ABORTED: Press enter to continue..." ∉ (runScript env).trace) ∨
     (Event.readInput "-- ABORTED: Press enter to continue..." ∈ (runScript env).trace ∧
      Event.out "\n-- CMake built successfully" ∉ (runScript env).trace)) ∧
    (Event.out "-- Changed working directory to the parent directory" ∈ (runScript env).trace ↔
      Event.chdir ".." ∈ (runScript env).trace) := by
  rcases env with ⟨cwd, g, b⟩
  cases hs : scriptsSuffix cwd <;>
    by_cases hg : g = 0 <;>
      by_cases hb : b = 0 <;>
        simp_all [runScript]

/-- C7: the working directory is mutated at most once per run, and never
from the first generation or build call onward. -/
theorem c7_chdirOnce (env : Env) :
    ((runScript env).trace.filter isChdir).length ≤ 1 ∧
    (stepOnward (runScript env).trace).filter isChdir = [] := by
  rcases env with ⟨cwd, g, b⟩
  cases hs : scriptsSuffix cwd <;>
    by_cases hg : g = 0 <;>
      by_cases hb : b = 0 <;>
        simp_all [runScript, stepOnward, isStepCall, isGenCall, isSysCall,
          isChdir, List.dropWhile]

/-- C8: in every run and whatever the generator returns, any command line
handed to the `os.system` build invocation is the constant
`cmake --build build`; the environment only decides whether it runs. -/
theorem c8_constantCommand (env : Env) (c : String)
    (h : Event.runSystem c ∈ (runScript env).trace) :
    c = "cmake --build build" := by
  rcases env with ⟨cwd, g, b⟩
  cases hs : scriptsSuffix cwd <;>
    by_cases hg : g = 0 <;>
      by_cases hb : b = 0 <;>
        simp_all [runScript]

/-- C8, witness on a successful run from `/repo`. -/
theorem c8_constantCommand_witness :
    Event.runSystem "cmake --build build" ∈
      (runScript { cwd := "/repo", genRet := 0, buildRet := 0 }).trace ∧
    "cmake --build build" = "cmake --build build" :=
  ⟨by decide,
   c8_constantCommand { cwd := "/repo", genRet := 0, buildRet := 0 }
     "cmake --build build" (by decide)⟩

/-- C9: the very first effect of every run is the print of the
pre-normalization working directory, before any directory change, before
the generation call and before the build. -/
theorem c9_firstOutput (env : Env) :
    (runScript env).trace.head? =
      some (Event.out2 "-- Current working directory: " env.cwd) := by
  rcases env with ⟨cwd, g, b⟩
  cases hs : scriptsSuffix cwd <;>
    by_cases hg : g = 0 <;>
      by_cases hb : b = 0 <;>
        simp_all [runScript]

/-- C10: for any starting directory that differs from its parent, the
generation call always runs in the post-step-1 working directory — the
parent when the `scripts` suffix matched (hence never the original
`scripts` directory), the unchanged directory otherwise — and no
directory change happens from the generation call onward. -/
theorem c10_generateAfterChdir (env : Env) (h : parentDir env.cwd ≠ env.cwd) :
    (∀ wd, Event.callGenerate wd ∈ (runScript env).trace →
       wd = (if scriptsSuffix env.cwd then parentDir env.cwd else env.cwd) ∧
       (scriptsSuffix env.cwd = true → wd ≠ env.cwd)) ∧
    (genOnward (runScript env).trace).filter isChdir = [] := by
  rcases env with ⟨cwd, g, b⟩
  cases hs : scriptsSuffix cwd <;>
    by_cases hg : g = 0 <;>
      by_cases hb : b = 0 <;>
        simp_all [runScript, genOnward, isGenCall, isChdir, List.dropWhile]

/-- C10, witness from `/repo/scripts`: generation runs in `/repo`, not in
the original `scripts` directory. -/
theorem c10_generateAfterChdir_witness :
    ("/repo" : String) =
      (if scriptsSuffix "/repo/scripts" then parentDir "/repo/scripts"
       else "/repo/scripts") ∧
    ("/repo" : String) ≠ "/repo/scripts" := by
  have h := c10_generateAfterChdir
    { cwd := "/repo/scripts", genRet := 0, buildRet := 0 } (by decide)
  have h2 := h.1 "/repo" (by decide)
  exact ⟨h2.1, h2.2 (by decide)⟩

end BuildColt
